import Mathlib

/-!
Verification of the llm-report-component-picker repository.

The development shallowly embeds the Python sources:
* `report_generator_mock.py` (`MockReportGenerator`): the deterministic
  keyword-driven assembler,
* `main.py` (`POST /generate-report`): the gateway with the S3 path whitelist,
* `report_generator_agents_sdk.py` / `report_generator_agents_sdk_v2.py`:
  the output-coercion and fallback logic around the agent run,
* `openai_agents_sdk_sample.py` (`process_csv_report`): the strict pipeline's
  gap/completion/planning slice.

Machine-level details that the Python code delegates to its standard library
(`json.loads`, `re.search` with the concrete patterns used in the sources) are
re-implemented here as executable total functions so that every claim can be
evaluated on concrete inputs.
-/

/-! ### JSON value model (the interchange format)

Mirrors the values `json.loads` can produce for the report pipeline:
`null`, booleans, numbers (kept as their raw lexeme: no claim inspects a
numeric value), strings, arrays, and objects as insertion-ordered key/value
lists with unique keys (later duplicate keys overwrite, as in Python dicts). -/

inductive JVal where
  | null : JVal
  | bool (bv : Bool) : JVal
  | num (raw : String) : JVal
  | str (sv : String) : JVal
  | arr (items : List JVal) : JVal
  | obj (entries : List (String × JVal)) : JVal

abbrev JObj := List (String × JVal)

/-- Lookup of a key in an object's field list (first occurrence). -/
def lookupJ (m : JObj) (k : String) : Option JVal :=
  (m.find? (fun kv => kv.1 == k)).map (fun kv => kv.2)

/-- Field access on a JSON value; `none` on non-objects. -/
def getField (j : JVal) (k : String) : Option JVal :=
  match j with
  | .obj m => lookupJ m k
  | _ => none

/-- Python-dict insertion: overwrite the value at an existing key in place,
otherwise append the binding at the end. -/
def objInsert (m : JObj) (k : String) (v : JVal) : JObj :=
  match m with
  | [] => [(k, v)]
  | (k', v') :: rest => if k' == k then (k, v) :: rest else (k', v') :: objInsert rest k v

/-! ### JSON parser, modelling `json.loads`

Total, fuelled recursion (the fuel `length+1` dominates the nesting depth,
since every recursive call consumes at least one character; Python itself
bounds nesting by its recursion limit).  Strict-mode `json.loads`: JSON
whitespace is space/tab/newline/carriage-return; `NaN`/`Infinity` are accepted
as number lexemes; strings reject raw control characters; lone surrogate
escapes, which a Lean `Char` cannot represent, are rejected (modelling
limitation, exercised by no claim). -/

def isJsonWs (c : Char) : Bool :=
  c = ' ' || c = '\n' || c = '\x0d' || c = '\t'

def skipWs (cs : List Char) : List Char := cs.dropWhile isJsonWs

def isDigitCh (c : Char) : Bool := 48 ≤ c.toNat && c.toNat ≤ 57

def hexDigitVal (c : Char) : Option Nat :=
  let n := c.toNat
  if 48 ≤ n && n ≤ 57 then some (n - 48)
  else if 97 ≤ n && n ≤ 102 then some (n - 87)
  else if 65 ≤ n && n ≤ 70 then some (n - 55)
  else none

def parseHex4 (cs : List Char) : Option (Nat × List Char) :=
  match cs with
  | a :: b :: c :: d :: rest =>
    match hexDigitVal a, hexDigitVal b, hexDigitVal c, hexDigitVal d with
    | some x, some y, some z, some w =>
      some (w + 16 * (z + 16 * (y + 16 * x)), rest)
    | _, _, _, _ => none
  | _ => none

/-- Body of a JSON string literal, after the opening quote. -/
def parseStringBody : Nat → List Char → List Char → Option (String × List Char)
  | 0, _, _ => none
  | fuel + 1, acc, cs =>
    match cs with
    | [] => none
    | '"' :: rest => some (String.mk acc.reverse, rest)
    | '\\' :: e :: rest =>
      match e with
      | '"' => parseStringBody fuel ('"' :: acc) rest
      | '\\' => parseStringBody fuel ('\\' :: acc) rest
      | '/' => parseStringBody fuel ('/' :: acc) rest
      | 'b' => parseStringBody fuel ('\x08' :: acc) rest
      | 'f' => parseStringBody fuel ('\x0c' :: acc) rest
      | 'n' => parseStringBody fuel ('\n' :: acc) rest
      | 'r' => parseStringBody fuel ('\x0d' :: acc) rest
      | 't' => parseStringBody fuel ('\t' :: acc) rest
      | 'u' =>
        match parseHex4 rest with
        | none => none
        | some (n, rest2) =>
          if 55296 ≤ n && n ≤ 56319 then
            match rest2 with
            | '\\' :: 'u' :: rest3 =>
              match parseHex4 rest3 with
              | some (m, rest4) =>
                if 56320 ≤ m && m ≤ 57343 then
                  parseStringBody fuel
                    (Char.ofNat (65536 + 1024 * (n - 55296) + (m - 56320)) :: acc) rest4
                else none
              | none => none
            | _ => none
          else if 56320 ≤ n && n ≤ 57343 then none
          else parseStringBody fuel (Char.ofNat n :: acc) rest2
      | _ => none
    | c :: rest => if c.toNat < 32 then none else parseStringBody fuel (c :: acc) rest

def takeDigits (cs : List Char) : List Char × List Char :=
  (cs.takeWhile isDigitCh, cs.dropWhile isDigitCh)

/-- JSON integer part: `0` or a nonzero digit followed by digits. -/
def parseIntPart (cs : List Char) : Option (List Char × List Char) :=
  match cs with
  | '0' :: rest => some (['0'], rest)
  | c :: rest =>
    if isDigitCh c then
      let (ds, r) := takeDigits rest
      some (c :: ds, r)
    else none
  | [] => none

def parseFracPart (cs : List Char) : Option (List Char × List Char) :=
  match cs with
  | '.' :: rest =>
    let (ds, r) := takeDigits rest
    if ds.isEmpty then none else some ('.' :: ds, r)
  | _ => some ([], cs)

def parseExpPart (cs : List Char) : Option (List Char × List Char) :=
  match cs with
  | c :: rest =>
    if c = 'e' || c = 'E' then
      match rest with
      | s :: rest2 =>
        if s = '+' || s = '-' then
          let (ds, r) := takeDigits rest2
          if ds.isEmpty then none else some (c :: s :: ds, r)
        else
          let (ds, r) := takeDigits rest
          if ds.isEmpty then none else some (c :: ds, r)
      | [] => none
    else some ([], cs)
  | [] => some ([], cs)

/-- JSON number lexeme, kept raw. -/
def parseNumber (cs : List Char) : Option (String × List Char) :=
  let (sign, cs1) :=
    match cs with
    | '-' :: rest => (['-'], rest)
    | _ => (([] : List Char), cs)
  match parseIntPart cs1 with
  | some (ip, cs2) =>
    match parseFracPart cs2 with
    | some (fp, cs3) =>
      match parseExpPart cs3 with
      | some (ep, cs4) => some (String.mk (sign ++ ip ++ fp ++ ep), cs4)
      | none => none
    | none => none
  | none => none

mutual

def parseValue : Nat → List Char → Option (JVal × List Char)
  | 0, _ => none
  | fuel + 1, cs =>
    match cs with
    | '{' :: rest =>
      match skipWs rest with
      | '}' :: r => some (.obj [], r)
      | cs1 =>
        match parseMember fuel cs1 with
        | some ((k, v), r) => parseObjLoop fuel (skipWs r) (objInsert [] k v)
        | none => none
    | '[' :: rest =>
      match skipWs rest with
      | ']' :: r => some (.arr [], r)
      | cs1 =>
        match parseValue fuel cs1 with
        | some (v, r) => parseArrLoop fuel (skipWs r) [v]
        | none => none
    | '"' :: rest => (parseStringBody (rest.length + 1) [] rest).map (fun p => (.str p.1, p.2))
    | 't' :: 'r' :: 'u' :: 'e' :: rest => some (.bool true, rest)
    | 'f' :: 'a' :: 'l' :: 's' :: 'e' :: rest => some (.bool false, rest)
    | 'n' :: 'u' :: 'l' :: 'l' :: rest => some (.null, rest)
    | 'N' :: 'a' :: 'N' :: rest => some (.num "NaN", rest)
    | 'I' :: 'n' :: 'f' :: 'i' :: 'n' :: 'i' :: 't' :: 'y' :: rest => some (.num "Infinity", rest)
    | '-' :: 'I' :: 'n' :: 'f' :: 'i' :: 'n' :: 'i' :: 't' :: 'y' :: rest =>
      some (.num "-Infinity", rest)
    | _ => (parseNumber cs).map (fun p => (.num p.1, p.2))

def parseMember : Nat → List Char → Option ((String × JVal) × List Char)
  | 0, _ => none
  | fuel + 1, cs =>
    match cs with
    | '"' :: rest =>
      match parseStringBody (rest.length + 1) [] rest with
      | some (k, r1) =>
        match skipWs r1 with
        | ':' :: r2 =>
          match parseValue fuel (skipWs r2) with
          | some (v, r3) => some ((k, v), r3)
          | none => none
        | _ => none
      | none => none
    | _ => none

def parseObjLoop : Nat → List Char → JObj → Option (JVal × List Char)
  | 0, _, _ => none
  | fuel + 1, cs, acc =>
    match cs with
    | '}' :: rest => some (.obj acc, rest)
    | ',' :: rest =>
      match parseMember fuel (skipWs rest) with
      | some ((k, v), r) => parseObjLoop fuel (skipWs r) (objInsert acc k v)
      | none => none
    | _ => none

def parseArrLoop : Nat → List Char → List JVal → Option (JVal × List Char)
  | 0, _, _ => none
  | fuel + 1, cs, acc =>
    match cs with
    | ']' :: rest => some (.arr acc, rest)
    | ',' :: rest =>
      match parseValue fuel (skipWs rest) with
      | some (v, r) => parseArrLoop fuel (skipWs r) (acc ++ [v])
      | none => none
    | _ => none

end

/-- Model of `json.loads`: parse a complete document, allowing surrounding
whitespace, rejecting trailing garbage.  `none` models a raised
`json.JSONDecodeError`. -/
def jsonParse (s : String) : Option JVal :=
  match parseValue (s.length + 1) (skipWs s.toList) with
  | some (v, rest) => if (skipWs rest).isEmpty then some v else none
  | none => none

/-! ### String helpers modelling Python `in`, `str.startswith`, and the
`re` patterns used by the sources -/

/-- Contiguous-sublist test on character lists. -/
def charsHaveSub (needle : List Char) : List Char → Bool
  | [] => needle.isEmpty
  | c :: rest => needle.isPrefixOf (c :: rest) || charsHaveSub needle rest

/-- Python `needle in hay` on strings (substring containment). -/
def strContains (hay needle : String) : Bool :=
  charsHaveSub needle.toList hay.toList

/-- Python `s.startswith(pre)`. -/
def strStartsWith (s pre : String) : Bool :=
  pre.toList.isPrefixOf s.toList

/-- Python `re` whitespace class over ASCII (the sources never feed the
non-ASCII Unicode spaces that `\s` would additionally match). -/
def isPyWs (c : Char) : Bool :=
  c = ' ' || c = '\t' || c = '\n' || c = '\x0d' || c = '\x0c' || c = '\x0b'

/-- Does `\s*` followed by a literal triple-backtick match here? -/
def fenceCloses (cs : List Char) : Bool :=
  ("```".toList).isPrefixOf (cs.dropWhile isPyWs)

/-- Lazy `\{.*?\}` (DOTALL) just after the opening brace: shortest body such
that the closing brace is followed by `\s*` and the closing fence.  Returns
the captured group including both braces. -/
def lazyBraceCapture (acc : List Char) : List Char → Option (List Char)
  | [] => none
  | c :: rest =>
    if c = '}' && fenceCloses rest then some ('{' :: (acc.reverse ++ ['}']))
    else lazyBraceCapture (c :: acc) rest

/-- One attempt of the v2 pattern at the current position. -/
def matchFenceV2At (cs : List Char) : Option (List Char) :=
  if ("```json".toList).isPrefixOf cs then
    match (cs.drop 7).dropWhile isPyWs with
    | '{' :: body => lazyBraceCapture [] body
    | _ => none
  else none

/-- Leftmost match of the v2 fence pattern
(`report_generator_agents_sdk_v2.py` line 218, also used at
`openai_agents_sdk_sample.py` line 541):
`re.search(r'```json\s*(\{.*?\})\s*```', s, re.DOTALL)`, group 1. -/
def searchFenceV2 : List Char → Option (List Char)
  | [] => none
  | c :: rest =>
    match matchFenceV2At (c :: rest) with
    | some g => some g
    | none => searchFenceV2 rest

def extractFencedV2 (s : String) : Option String :=
  (searchFenceV2 s.toList).map String.mk

/-- Lazy `(.*?)` (DOTALL) for the v1 pattern: shortest capture followed by a
newline and the closing fence. -/
def lazyCaptureV1 (acc : List Char) : List Char → Option (List Char)
  | [] => if ("\n```".toList).isPrefixOf [] then some acc.reverse else none
  | c :: rest =>
    if ("\n```".toList).isPrefixOf (c :: rest) then some acc.reverse
    else lazyCaptureV1 (c :: acc) rest

/-- One attempt of the v1 pattern at the current position. -/
def matchFenceV1At (cs : List Char) : Option (List Char) :=
  if ("```json\n".toList).isPrefixOf cs then lazyCaptureV1 [] (cs.drop 8)
  else none

/-- Leftmost match of the v1 fence pattern
(`report_generator_agents_sdk.py` line 198):
`re.search(r'```json\n(.*?)\n```', s, re.DOTALL)`, group 1. -/
def searchFenceV1 : List Char → Option (List Char)
  | [] => none
  | c :: rest =>
    match matchFenceV1At (c :: rest) with
    | some g => some g
    | none => searchFenceV1 rest

def extractFencedV1 (s : String) : Option String :=
  (searchFenceV1 s.toList).map String.mk

/-- Lazy `.+?` continuation for the title pattern: the group has already
consumed `acc` (nonempty, reversed); stop as soon as the literal `レポート`
follows, never crossing a newline (`.` without DOTALL). -/
def titleLazy (acc : List Char) : List Char → Option (List Char)
  | [] => if ("レポート".toList).isPrefixOf [] then some (acc.reverse ++ "レポート".toList) else none
  | c :: rest =>
    if ("レポート".toList).isPrefixOf (c :: rest) then some (acc.reverse ++ "レポート".toList)
    else if c = '\n' then none
    else titleLazy (c :: acc) rest

/-- One attempt of the title pattern `(.+?レポート)` at the current position:
`.+?` must consume at least one non-newline character. -/
def titleMatchAt : List Char → Option (List Char)
  | [] => none
  | c :: rest => if c = '\n' then none else titleLazy [c] rest

/-- Leftmost match of `re.search(r'(.+?レポート)', user_request)`
(`report_generator_mock.py` line 27), group 1. -/
def searchTitle : List Char → Option (List Char)
  | [] => none
  | c :: rest =>
    match titleMatchAt (c :: rest) with
    | some g => some g
    | none => searchTitle rest

/-! ### Report document shape

The Python sources build the document as nested dicts with a fixed schema
(`main.py` docs, §6 of the design); the mock assembler and the fallback
builder populate exactly these keys, so they are embedded as records.
`ts` stands for `int(datetime.now().timestamp() * 1000)` and `now` for
`datetime.now().isoformat()`, both ambient-time inputs made explicit. -/

inductive PVal where
  | s (v : String) : PVal
  | ls (vs : List String) : PVal
deriving DecidableEq

structure ContentItem where
  source : String
  component : String
  value : String
  props : List (String × PVal)
deriving DecidableEq

structure HeaderSection where
  id : String
  type : String
  component : String
  contents : List ContentItem
deriving DecidableEq

structure MainSection where
  id : String
  type : String
  component : String
  title : String
  description : String
  contents : List ContentItem
deriving DecidableEq

structure ReportSections where
  header : List HeaderSection
  main : List MainSection
deriving DecidableEq

structure ReportDocument where
  reportId : String
  title : String
  createdAt : String
  createdBy : String
  sections : ReportSections
deriving DecidableEq

def PVal.toJVal : PVal → JVal
  | .s v => .str v
  | .ls vs => .arr (vs.map JVal.str)

def ContentItem.toJVal (c : ContentItem) : JVal :=
  .obj [("source", .str c.source), ("component", .str c.component),
        ("value", .str c.value), ("props", .obj (c.props.map (fun kv => (kv.1, kv.2.toJVal))))]

def HeaderSection.toJVal (s : HeaderSection) : JVal :=
  .obj [("id", .str s.id), ("type", .str s.type), ("component", .str s.component),
        ("contents", .arr (s.contents.map ContentItem.toJVal))]

def MainSection.toJVal (s : MainSection) : JVal :=
  .obj [("id", .str s.id), ("type", .str s.type), ("component", .str s.component),
        ("title", .str s.title), ("description", .str s.description),
        ("contents", .arr (s.contents.map ContentItem.toJVal))]

def ReportDocument.toJVal (d : ReportDocument) : JVal :=
  .obj [("reportId", .str d.reportId), ("title", .str d.title),
        ("createdAt", .str d.createdAt), ("createdBy", .str d.createdBy),
        ("sections", .obj [("header", .arr (d.sections.header.map HeaderSection.toJVal)),
                           ("main", .arr (d.sections.main.map MainSection.toJVal))])]

/-! ### `MockReportGenerator` (`report_generator_mock.py`) -/

/-- Keyword-driven component picking, `analyze_request` lines 16-24: the three
checks run independently, appending in the fixed order DataTable, BarChart,
Card. -/
def analyze_components (user_request : String) : List String :=
  (if strContains user_request "売上" || strContains user_request "推移"
   then ["DataTable"] else []) ++
  (if strContains user_request "カテゴリ" || strContains user_request "比較" ||
      strContains user_request "別"
   then ["BarChart"] else []) ++
  (if strContains user_request "KPI" || strContains user_request "指標" ||
      strContains user_request "サマリー"
   then ["Card"] else [])

/-- Title extraction, `analyze_request` lines 26-28. -/
def analyze_title (user_request : String) : String :=
  match searchTitle user_request.toList with
  | some g => String.mk g
  | none => "レポート"

/-- `MockReportGenerator.analyze_request` (lines 14-33): title plus component
list, defaulting to `["Card", "DataTable"]` when no keyword matched. -/
def analyze_request (user_request : String) : String × List String :=
  let comps := analyze_components user_request
  (analyze_title user_request, if comps.isEmpty then ["Card", "DataTable"] else comps)

def mkMainId (n : Nat) : String := "section_main_" ++ toString n

/-- Header block, lines 46-60. -/
def mockHeader (title : String) : HeaderSection :=
  { id := "section_header_1", type := "Default", component := "MainHeader",
    contents := [{ source := "TEXT", component := "MainHeader", value := title, props := [] }] }

/-- Card section, lines 68-88: a fixed constant apart from the sequential id. -/
def cardSection (sid : Nat) : MainSection :=
  { id := mkMainId sid, type := "Default", component := "Card",
    title := "売上サマリー", description := "主要KPI",
    contents := [{ source := "TEXT", component := "Card", value := "",
                   props := [("title", .s "今月の売上"), ("description", .s "前月比 +15%"),
                             ("content", .s "¥45,280,000"), ("footer", .s "目標達成率: 112%")] }] }

/-- `next((p for p in s3_paths if "daily" in p), s3_paths[0])`, line 94. -/
def dailyPath (s3_paths : List String) : String :=
  (s3_paths.find? (fun p => strContains p "daily")).getD (s3_paths.headD "")

/-- DataTable section, lines 95-109. -/
def dataTableSection (sid : Nat) (path : String) : MainSection :=
  { id := mkMainId sid, type := "Default", component := "DataTable",
    title := "売上詳細データ", description := "日別の売上推移",
    contents := [{ source := "S3", component := "DataTable", value := path, props := [] }] }

/-- `next((p for p in s3_paths if "category" in p), s3_paths[1] if len(s3_paths) > 1 else s3_paths[0])`, line 115. -/
def categoryPath (s3_paths : List String) : String :=
  (s3_paths.find? (fun p => strContains p "category")).getD
    (if 1 < s3_paths.length then s3_paths.getD 1 "" else s3_paths.headD "")

/-- BarChart section, lines 116-133. -/
def barChartSection (sid : Nat) (path : String) : MainSection :=
  { id := mkMainId sid, type := "Default", component := "BarChart",
    title := "製品カテゴリ別売上", description := "カテゴリ別の売上比較",
    contents := [{ source := "S3", component := "BarChart", value := path,
                   props := [("xField", .s "category"), ("yFields", .ls ["sales", "profit"])] }] }

/-- Trailing TextField section, lines 137-151. -/
def textFieldSection (sid : Nat) : MainSection :=
  { id := mkMainId sid, type := "Default", component := "TextField",
    title := "補足情報", description := "",
    contents := [{ source := "TEXT", component := "TextField",
                   value := "このレポートは自動生成されました。データは指定されたS3パスから取得しています。",
                   props := [] }] }

/-- Contribution of the Card block to the running `section_id` counter. -/
def cardCount (comps : List String) : Nat :=
  if comps.contains "Card" then 1 else 0

/-- Contribution of the DataTable block to the running counter. -/
def tableCount (comps : List String) (s3_paths : List String) : Nat :=
  if comps.contains "DataTable" ∧ 0 < s3_paths.length then 1 else 0

/-- Contribution of the BarChart block to the running counter. -/
def barCount (comps : List String) (s3_paths : List String) : Nat :=
  if comps.contains "BarChart" ∧ 1 < s3_paths.length then 1 else 0

/-- The `main` section list of `MockReportGenerator.generate_report`
(lines 65-151): `section_id` starts at 1 and each emitted block uses the
current counter, so each block's id is 1 plus the number of blocks emitted
before it. -/
def mockMain (comps : List String) (s3_paths : List String) : List MainSection :=
  (if comps.contains "Card" then [cardSection 1] else []) ++
  (if comps.contains "DataTable" ∧ 0 < s3_paths.length
   then [dataTableSection (1 + cardCount comps) (dailyPath s3_paths)] else []) ++
  (if comps.contains "BarChart" ∧ 1 < s3_paths.length
   then [barChartSection (1 + cardCount comps + tableCount comps s3_paths)
          (categoryPath s3_paths)] else []) ++
  [textFieldSection
    (1 + cardCount comps + tableCount comps s3_paths + barCount comps s3_paths)]

/-- `MockReportGenerator.generate_report` (lines 35-153). -/
def mock_generate_report (user_request : String) (s3_paths : List String)
    (ts : Nat) (now : String) : ReportDocument :=
  { reportId := "report_" ++ toString ts,
    title := (analyze_request user_request).1,
    createdAt := now ++ "Z", createdBy := "agent_generated",
    sections := { header := [mockHeader (analyze_request user_request).1],
                  main := mockMain (analyze_request user_request).2 s3_paths } }

/-- Values carried by the contents of the main sections of one component kind. -/
def sectionValues (sec : MainSection) : List String :=
  sec.contents.map (fun c => c.value)

def concatAll : List (List String) → List String
  | [] => []
  | x :: xs => x ++ concatAll xs

def mainContentValues (doc : ReportDocument) (comp : String) : List String :=
  concatAll ((doc.sections.main.filter (fun sec => sec.component == comp)).map sectionValues)

/-! ### Error-path fallback document

`_generate_fallback_report` is textually identical in
`report_generator_agents_sdk.py` (lines 229-270) and
`report_generator_agents_sdk_v2.py` (lines 245-286): a fixed document whose
only main section is a TextField error notice. -/

def fallbackReport (ts : Nat) (now : String) : ReportDocument :=
  { reportId := "report_" ++ toString ts, title := "レポート",
    createdAt := now ++ "Z", createdBy := "agent_generated",
    sections :=
      { header := [{ id := "section_header_1", type := "Default", component := "MainHeader",
                     contents := [{ source := "TEXT", component := "MainHeader",
                                    value := "レポート", props := [] }] }],
        main := [{ id := "section_main_1", type := "Default", component := "TextField",
                   title := "エラー", description := "",
                   contents := [{ source := "TEXT", component := "TextField",
                                  value := "レポート生成中にエラーが発生しました。", props := [] }] }] } }

/-! ### Draft-field synthesis and the agent-run output handling -/

/-- Python `if k not in report_json: report_json[k] = v` on a dict. -/
def addIfMissing (m : JObj) (k : String) (v : JVal) : JObj :=
  match lookupJ m k with
  | some _ => m
  | none => m ++ [(k, v)]

/-- The "basic validation" block, identical in
`report_generator_agents_sdk_v2.py` lines 231-236 and
`report_generator_agents_sdk.py` lines 208-213: synthesize
`reportId`/`createdAt`/`createdBy` when absent. -/
def validate_report_fields (m : JObj) (ts : Nat) (now : String) : JObj :=
  addIfMissing
    (addIfMissing
      (addIfMissing m "reportId" (.str ("report_" ++ toString ts)))
      "createdAt" (.str (now ++ "Z")))
    "createdBy" (.str "agent_generated")

/-- Python `"k" in xs` for a parsed JSON list: equality with some element
(only string elements can equal a string). -/
def listHasStr (xs : List JVal) (k : String) : Bool :=
  xs.any (fun v => match v with | .str t => t == k | _ => false)

/-- The validation block applied to an arbitrary parsed value.  On a dict it
adds the missing draft fields; on a list or a string the three `in` checks
are element membership / substring tests and the first assignment to a
missing key raises `TypeError`; on any other value `in` itself raises.  A
raised error lands in the enclosing handler, producing `onErr`. -/
def finish_report (j : JVal) (onErr : JVal) (ts : Nat) (now : String) : JVal :=
  match j with
  | .obj m => .obj (validate_report_fields m ts now)
  | .arr xs =>
    if listHasStr xs "reportId" && listHasStr xs "createdAt" && listHasStr xs "createdBy"
    then .arr xs else onErr
  | .str s =>
    if strContains s "reportId" && strContains s "createdAt" && strContains s "createdBy"
    then .str s else onErr
  | _ => onErr

/-- What the agent run handed back: either `Runner.run` raised, or it
finished with a string `final_output`, or with an already-structured value. -/
inductive AgentRunOutcome where
  | raised : AgentRunOutcome
  | finished (final_output : String) : AgentRunOutcome
  | finishedVal (j : JVal) : AgentRunOutcome

/-- Output processing of the v2 entry point `generate_report`
(`report_generator_agents_sdk_v2.py` lines 206-243).  A fenced block is
extracted and parsed, else the whole string is parsed; a parse failure (the
raised `ValueError("Invalid JSON output")` / `JSONDecodeError`) and any
failure inside the `try` fall through to the fallback document. -/
def generate_report_v2_output (final_output : String) (ts : Nat) (now : String) : JVal :=
  let onErr := (fallbackReport ts now).toJVal
  match extractFencedV2 final_output with
  | some g =>
    match jsonParse g with
    | some j => finish_report j onErr ts now
    | none => onErr
  | none =>
    match jsonParse final_output with
    | some j => finish_report j onErr ts now
    | none => onErr

/-- The v2 resilient entry point over an agent-run outcome. -/
def generate_report_v2 (o : AgentRunOutcome) (ts : Nat) (now : String) : JVal :=
  match o with
  | .raised => (fallbackReport ts now).toJVal
  | .finished s => generate_report_v2_output s ts now
  | .finishedVal j => finish_report j ((fallbackReport ts now).toJVal) ts now

/-- The error-shaped dict returned by the v1 inner handler
(`report_generator_agents_sdk.py` lines 219-223). -/
def v1ErrorDict (final_output : String) (msgs : List String) : JVal :=
  .obj [("error", .str "Failed to parse JSON"), ("content", .str final_output),
        ("messages", .arr (msgs.map JVal.str))]

/-- Output processing of `ReportGeneratorAgentSDK.generate_report`
(`report_generator_agents_sdk.py` lines 190-223): the whole extraction,
parse and validation sits inside an inner `try` whose handler returns the
error dict — not the fallback document, which only the outer handler (a
`Runner.run_sync` failure) produces. -/
def generate_report_v1_output (final_output : String) (msgs : List String)
    (ts : Nat) (now : String) : JVal :=
  let onErr := v1ErrorDict final_output msgs
  match extractFencedV1 final_output with
  | some g =>
    match jsonParse g with
    | some j => finish_report j onErr ts now
    | none => onErr
  | none =>
    match jsonParse final_output with
    | some j => finish_report j onErr ts now
    | none => onErr

/-! ### Gateway (`main.py`, `POST /generate-report`, lines 91-121) -/

inductive GatewayResponse where
  | badRequest (detail : String) : GatewayResponse
  | success (report : ReportDocument) : GatewayResponse
deriving DecidableEq

/-- The endpoint body: the whitelist loop raises `HTTPException(400)` at the
first path that does not start with `s3://<allowed_bucket>/`; only when every
path passes is the `MockReportGenerator` constructed and run. -/
def api_generate_report (allowed_bucket : String) (user_request : String)
    (s3_paths : List String) (ts : Nat) (now : String) : GatewayResponse :=
  match s3_paths.find? (fun p => !(strStartsWith p ("s3://" ++ allowed_bucket ++ "/"))) with
  | some p => .badRequest ("Invalid S3 path: " ++ p)
  | none => .success (mock_generate_report user_request s3_paths ts now)

/-! ### Strict pipeline: gap, completion, planning
(`openai_agents_sdk_sample.py`, `process_csv_report` lines 511-556) -/

structure Goal where
  goal : String
  period : String
deriving DecidableEq

structure CSVMetadata where
  id : String
  columns : List String
  period : String
  row_count : Nat
deriving DecidableEq

structure Requirement where
  metrics : List String
  granularity : String
  period : String
deriving DecidableEq

structure DataGap where
  missing_columns : List String
  missing_periods : List String
  granularity_mismatch : Option String
deriving DecidableEq

/-- `if gaps.missing_columns or gaps.missing_periods:` (line 534) — Python
truthiness of the two lists. -/
def completion_entered (gaps : DataGap) : Bool :=
  !gaps.missing_columns.isEmpty || !gaps.missing_periods.isEmpty

/-- Parsing of the completer's raw output (lines 539-548): a fenced JSON
block is decoded (`json.loads` raising aborts the run, uncaught), otherwise
the text is wrapped as `{"raw_text": ...}`. -/
def parse_completer_output (raw : String) : Except String JVal :=
  match extractFencedV2 raw with
  | some g =>
    match jsonParse g with
    | some j => .ok j
    | none => .error "json.loads failed on completer output"
  | none => .ok (.obj [("raw_text", .str raw)])

/-- Step 5 (lines 533-549): run the completer only when a gap exists; empty
output raises; the decoded `completer_dict` is recorded and nothing else. -/
def completion_step (gaps : DataGap) (completer_raw : String) :
    Except String (Option JVal) :=
  if completion_entered gaps then
    if completer_raw = "" then .error "Data completer returned empty output"
    else (parse_completer_output completer_raw).map some
  else .ok none

/-- The payload handed to the Report Planner (lines 552-556): built from
`goal`, `requirements` and `csv_metadata_results` exactly as they stood
before step 5. -/
structure PlanningPayload where
  goal : Goal
  requirements : Requirement
  metadata : List CSVMetadata
deriving DecidableEq

/-- Steps 4-to-6 glue: after the (possibly skipped) completion step, whose
result is bound to `completer_dict` and never used again, the planner's
payload is assembled from the untouched records. -/
def gap_to_planning (goal : Goal) (requirements : Requirement)
    (metas : List CSVMetadata) (gaps : DataGap) (completer_raw : String) :
    Except String PlanningPayload :=
  (completion_step gaps completer_raw).map
    (fun _completer_dict => { goal := goal, requirements := requirements, metadata := metas })

/-! ### Helper lemmas -/

theorem lookupJ_cons (kv : String × JVal) (m : JObj) (k : String) :
    lookupJ (kv :: m) k = if kv.1 == k then some kv.2 else lookupJ m k := by
  unfold lookupJ
  cases h : kv.1 == k <;> simp [List.find?, h]

theorem lookupJ_append_of_none {m₁ : JObj} {k : String} (h : lookupJ m₁ k = none)
    (m₂ : JObj) : lookupJ (m₁ ++ m₂) k = lookupJ m₂ k := by
  induction m₁ with
  | nil => rfl
  | cons kv rest ih =>
    rw [lookupJ_cons] at h
    rw [List.cons_append, lookupJ_cons]
    cases hk : kv.1 == k with
    | true => rw [hk] at h; simp at h
    | false => rw [hk] at h; simp at h ⊢; exact ih h

theorem lookupJ_append_of_some {m₁ : JObj} {k : String} {v : JVal}
    (h : lookupJ m₁ k = some v) (m₂ : JObj) : lookupJ (m₁ ++ m₂) k = some v := by
  induction m₁ with
  | nil => simp [lookupJ] at h
  | cons kv rest ih =>
    rw [lookupJ_cons] at h
    rw [List.cons_append, lookupJ_cons]
    cases hk : kv.1 == k with
    | true => rw [hk] at h; simpa [hk] using h
    | false => rw [hk] at h; simp at h ⊢; exact ih h

theorem lookupJ_single (k k' : String) (v : JVal) :
    lookupJ [(k, v)] k' = if k == k' then some v else none := by
  rw [lookupJ_cons]; rfl

theorem lookupJ_addIfMissing_self (m : JObj) (k : String) (v : JVal) :
    lookupJ (addIfMissing m k v) k = some ((lookupJ m k).getD v) := by
  unfold addIfMissing
  cases h : lookupJ m k with
  | some w => simp [h]
  | none =>
    rw [lookupJ_append_of_none h, lookupJ_single]
    simp

theorem lookupJ_addIfMissing_ne (m : JObj) (k : String) (v : JVal) (k' : String)
    (hne : k ≠ k') : lookupJ (addIfMissing m k v) k' = lookupJ m k' := by
  unfold addIfMissing
  cases h : lookupJ m k with
  | some w => rfl
  | none =>
    cases h' : lookupJ m k' with
    | some w => exact lookupJ_append_of_some h' _
    | none =>
      rw [lookupJ_append_of_none h', lookupJ_single]
      simp [hne]

/-- Master description of the draft-field synthesis step. -/
theorem lookupJ_validate (m : JObj) (ts : Nat) (now : String) (k : String) :
    lookupJ (validate_report_fields m ts now) k =
      if k = "reportId" then some ((lookupJ m k).getD (.str ("report_" ++ toString ts)))
      else if k = "createdAt" then some ((lookupJ m k).getD (.str (now ++ "Z")))
      else if k = "createdBy" then some ((lookupJ m k).getD (.str "agent_generated"))
      else lookupJ m k := by
  unfold validate_report_fields
  by_cases h1 : k = "reportId"
  · subst h1
    rw [lookupJ_addIfMissing_ne _ _ _ _ (by decide),
        lookupJ_addIfMissing_ne _ _ _ _ (by decide),
        lookupJ_addIfMissing_self]
    simp
  · by_cases h2 : k = "createdAt"
    · subst h2
      rw [lookupJ_addIfMissing_ne _ _ _ _ (by decide),
          lookupJ_addIfMissing_self,
          lookupJ_addIfMissing_ne _ _ _ _ (Ne.symm h1)]
      simp [h1]
    · by_cases h3 : k = "createdBy"
      · subst h3
        rw [lookupJ_addIfMissing_self,
            lookupJ_addIfMissing_ne _ _ _ _ (Ne.symm h2),
            lookupJ_addIfMissing_ne _ _ _ _ (Ne.symm h1)]
        simp [h1, h2]
      · rw [lookupJ_addIfMissing_ne _ _ _ _ (Ne.symm h3),
            lookupJ_addIfMissing_ne _ _ _ _ (Ne.symm h2),
            lookupJ_addIfMissing_ne _ _ _ _ (Ne.symm h1)]
        simp [h1, h2, h3]

/-! ### Claims -/

/-- C8: at the GENERATE step, for every draft report mapping parsed from the
backend output, `generate_report` adds `reportId = "report_<timestamp>"`,
`createdAt = <iso timestamp>Z` and `createdBy = "agent_generated"` exactly
when the respective key is absent, returns every already-present key
unchanged, and neither adds, removes nor modifies any other field
(`report_generator_agents_sdk_v2.py` lines 230-239,
`report_generator_agents_sdk.py` lines 207-215). -/
theorem claim_C8 (m : JObj) (ts : Nat) (now : String) :
    (lookupJ m "reportId" = none →
      lookupJ (validate_report_fields m ts now) "reportId"
        = some (.str ("report_" ++ toString ts)))
    ∧ (lookupJ m "createdAt" = none →
      lookupJ (validate_report_fields m ts now) "createdAt" = some (.str (now ++ "Z")))
    ∧ (lookupJ m "createdBy" = none →
      lookupJ (validate_report_fields m ts now) "createdBy" = some (.str "agent_generated"))
    ∧ (∀ k v, lookupJ m k = some v → lookupJ (validate_report_fields m ts now) k = some v)
    ∧ (∀ k, k ≠ "reportId" → k ≠ "createdAt" → k ≠ "createdBy" →
        lookupJ (validate_report_fields m ts now) k = lookupJ m k)
    ∧ (∀ k, (lookupJ (validate_report_fields m ts now) k).isSome →
        (lookupJ m k).isSome ∨ k = "reportId" ∨ k = "createdAt" ∨ k = "createdBy") := by
  refine ⟨?_, ?_, ?_, ?_, ?_, ?_⟩
  · intro h; rw [lookupJ_validate]; simp [h]
  · intro h; rw [lookupJ_validate]; simp [h]
  · intro h; rw [lookupJ_validate]; simp [h]
  · intro k v h
    rw [lookupJ_validate]
    by_cases h1 : k = "reportId"
    · subst h1; simp [h]
    · by_cases h2 : k = "createdAt"
      · subst h2; simp [h1, h]
      · by_cases h3 : k = "createdBy"
        · subst h3; simp [h1, h2, h]
        · simp [h1, h2, h3, h]
  · intro k h1 h2 h3
    rw [lookupJ_validate]
    simp [h1, h2, h3]
  · intro k h
    by_cases h1 : k = "reportId"
    · exact Or.inr (Or.inl h1)
    · by_cases h2 : k = "createdAt"
      · exact Or.inr (Or.inr (Or.inl h2))
      · by_cases h3 : k = "createdBy"
        · exact Or.inr (Or.inr (Or.inr h3))
        · rw [lookupJ_validate] at h
          simp [h1, h2, h3] at h
          exact Or.inl h

/-- C8 witness: a parsed draft lacking `reportId` but carrying `title` gets
`reportId` synthesized while `title` survives unchanged. -/
theorem claim_C8_witness :
    (lookupJ [("title", JVal.str "T")] "reportId" = none
      ∧ lookupJ (validate_report_fields [("title", JVal.str "T")] 7 "D") "reportId"
          = some (.str ("report_" ++ toString 7)))
    ∧ lookupJ (validate_report_fields [("title", JVal.str "T")] 7 "D") "title"
        = some (.str "T") :=
  ⟨⟨rfl, (claim_C8 [("title", JVal.str "T")] 7 "D").1 rfl⟩,
    (claim_C8 [("title", JVal.str "T")] 7 "D").2.2.2.1 "title" (.str "T") rfl⟩

/-- C2: a `POST /generate-report` request with a path outside
`s3://<allowed bucket>/` is rejected with a client error naming the offending
path, before any generation runs; a request whose every path carries the
prefix (vacuously, the empty list) proceeds to generation
(`main.py` lines 91-121). -/
theorem claim_C2 (allowed_bucket user_request : String) (s3_paths : List String)
    (ts : Nat) (now : String) :
    ((∃ p ∈ s3_paths, strStartsWith p ("s3://" ++ allowed_bucket ++ "/") = false) →
      ∃ p ∈ s3_paths, strStartsWith p ("s3://" ++ allowed_bucket ++ "/") = false ∧
        api_generate_report allowed_bucket user_request s3_paths ts now =
          .badRequest ("Invalid S3 path: " ++ p))
    ∧ ((∀ p ∈ s3_paths, strStartsWith p ("s3://" ++ allowed_bucket ++ "/") = true) →
      api_generate_report allowed_bucket user_request s3_paths ts now =
        .success (mock_generate_report user_request s3_paths ts now)) := by
  constructor
  · intro h
    unfold api_generate_report
    cases hf : s3_paths.find?
        (fun p => !(strStartsWith p ("s3://" ++ allowed_bucket ++ "/"))) with
    | none =>
      exfalso
      obtain ⟨p, hp, hps⟩ := h
      have hnone := List.find?_eq_none.mp hf p hp
      rw [hps] at hnone
      simp at hnone
    | some p =>
      refine ⟨p, List.mem_of_find?_eq_some hf, ?_, rfl⟩
      have := List.find?_some hf
      simpa using this
  · intro h
    unfold api_generate_report
    have hf : s3_paths.find?
        (fun p => !(strStartsWith p ("s3://" ++ allowed_bucket ++ "/"))) = none := by
      rw [List.find?_eq_none]
      intro p hp
      rw [h p hp]
      simp
    rw [hf]

/-- C2 witness: a concrete offending path is rejected with the 400 detail
naming it, and an all-whitelisted request proceeds to the mock generation. -/
theorem claim_C2_witness :
    (∃ p ∈ ["s3://kizukai-ds-tmp/ok.json", "s3://evil/b.json"],
        strStartsWith p ("s3://" ++ "kizukai-ds-tmp" ++ "/") = false ∧
          api_generate_report "kizukai-ds-tmp" "r" ["s3://kizukai-ds-tmp/ok.json", "s3://evil/b.json"] 0 "N" =
            .badRequest ("Invalid S3 path: " ++ p))
    ∧ api_generate_report "kizukai-ds-tmp" "r" ["s3://kizukai-ds-tmp/ok.json"] 0 "N" =
        .success (mock_generate_report "r" ["s3://kizukai-ds-tmp/ok.json"] 0 "N") :=
  ⟨(claim_C2 "kizukai-ds-tmp" "r" ["s3://kizukai-ds-tmp/ok.json", "s3://evil/b.json"] 0 "N").1
      ⟨"s3://evil/b.json", by decide, by decide⟩,
    (claim_C2 "kizukai-ds-tmp" "r" ["s3://kizukai-ds-tmp/ok.json"] 0 "N").2 (by decide)⟩

/-- C9: in the strict pipeline, the Completion stage is entered exactly when
the Gap stage's `DataGap` has non-empty `missing_columns` or non-empty
`missing_periods`, and whenever the Planning stage is reached its payload is
exactly the pre-Completion `Requirement` and per-file metadata (and goal) —
the Completion output alters neither
(`openai_agents_sdk_sample.py` lines 533-556). -/
theorem claim_C9 (goal : Goal) (requirements : Requirement) (metas : List CSVMetadata)
    (gaps : DataGap) (completer_raw : String) :
    (completion_entered gaps = true ↔
      gaps.missing_columns ≠ [] ∨ gaps.missing_periods ≠ [])
    ∧ (∀ payload, gap_to_planning goal requirements metas gaps completer_raw = .ok payload →
        payload = { goal := goal, requirements := requirements, metadata := metas }) := by
  constructor
  · unfold completion_entered
    rw [Bool.or_eq_true, Bool.not_eq_true', Bool.not_eq_true']
    rw [List.isEmpty_eq_false_iff_exists_mem, List.isEmpty_eq_false_iff_exists_mem]
    constructor
    · rintro (⟨x, hx⟩ | ⟨x, hx⟩)
      · exact Or.inl (List.ne_nil_of_mem hx)
      · exact Or.inr (List.ne_nil_of_mem hx)
    · rintro (h | h)
      · obtain ⟨x, hx⟩ := List.exists_mem_of_ne_nil _ h
        exact Or.inl ⟨x, hx⟩
      · obtain ⟨x, hx⟩ := List.exists_mem_of_ne_nil _ h
        exact Or.inr ⟨x, hx⟩
  · intro payload h
    unfold gap_to_planning at h
    cases hcs : completion_step gaps completer_raw with
    | error e => rw [hcs] at h; simp [Except.map] at h
    | ok o => rw [hcs] at h; simp [Except.map] at h; exact h.symm

/-- C9 witness: with one missing column the completer runs, and the planner
payload is exactly the pre-completion records. -/
theorem claim_C9_witness :
    (completion_entered ⟨["成長率"], [], none⟩ = true ↔
      (["成長率"] ≠ ([] : List String) ∨ ([] : List String) ≠ ([] : List String)))
    ∧ (⟨⟨"g", "p"⟩, ⟨["m"], "daily", "2024"⟩, []⟩ : PlanningPayload) =
        { goal := ⟨"g", "p"⟩, requirements := ⟨["m"], "daily", "2024"⟩, metadata := [] } :=
  ⟨(claim_C9 ⟨"g", "p"⟩ ⟨["m"], "daily", "2024"⟩ [] ⟨["成長率"], [], none⟩ "web").1,
    (claim_C9 ⟨"g", "p"⟩ ⟨["m"], "daily", "2024"⟩ [] ⟨["成長率"], [], none⟩ "web").2 _ rfl⟩

/-- C4: a request text containing none of the recognized keywords — none of
the sales/trend terms (売上, 推移), category/comparison/by-X terms (カテゴリ,
比較, 別), KPI/indicator/summary terms (KPI, 指標, サマリー) — makes
`analyze_request` select exactly the default set `["Card", "DataTable"]`,
never BarChart and never the empty set
(`report_generator_mock.py` lines 14-33). -/
theorem claim_C4 (user_request : String)
    (h1 : strContains user_request "売上" = false)
    (h2 : strContains user_request "推移" = false)
    (h3 : strContains user_request "カテゴリ" = false)
    (h4 : strContains user_request "比較" = false)
    (h5 : strContains user_request "別" = false)
    (h6 : strContains user_request "KPI" = false)
    (h7 : strContains user_request "指標" = false)
    (h8 : strContains user_request "サマリー" = false) :
    (analyze_request user_request).2 = ["Card", "DataTable"]
    ∧ "BarChart" ∉ (analyze_request user_request).2
    ∧ (analyze_request user_request).2 ≠ [] := by
  have heq : (analyze_request user_request).2 = ["Card", "DataTable"] := by
    simp [analyze_request, analyze_components, h1, h2, h3, h4, h5, h6, h7, h8]
  refine ⟨heq, ?_, ?_⟩
  · rw [heq]; decide
  · rw [heq]; decide

/-- C4 witness: the keyword-free request "データを教えて" yields the default
component set. -/
theorem claim_C4_witness :
    (strContains "データを教えて" "売上" = false ∧ strContains "データを教えて" "推移" = false ∧
     strContains "データを教えて" "カテゴリ" = false ∧ strContains "データを教えて" "比較" = false ∧
     strContains "データを教えて" "別" = false ∧ strContains "データを教えて" "KPI" = false ∧
     strContains "データを教えて" "指標" = false ∧ strContains "データを教えて" "サマリー" = false)
    ∧ (analyze_request "データを教えて").2 = ["Card", "DataTable"] :=
  ⟨⟨rfl, rfl, rfl, rfl, rfl, rfl, rfl, rfl⟩,
    (claim_C4 "データを教えて" rfl rfl rfl rfl rfl rfl rfl rfl).1⟩

/-- C5: for a non-empty path list, when the table component is selected the
single DataTable section's content value is the first path containing the
"daily" marker, else the first path of the list
(`report_generator_mock.py` lines 92-110). -/
theorem claim_C5 (user_request : String) (s3_paths : List String) (ts : Nat) (now : String)
    (hlen : 0 < s3_paths.length)
    (hsel : (analyze_request user_request).2.contains "DataTable" = true) :
    mainContentValues (mock_generate_report user_request s3_paths ts now) "DataTable"
      = [(s3_paths.find? (fun p => strContains p "daily")).getD (s3_paths.headD "")] := by
  unfold mock_generate_report mockMain mainContentValues
  split_ifs <;>
    simp_all [cardSection, dataTableSection, barChartSection, textFieldSection,
      sectionValues, concatAll, dailyPath, List.filter]

/-- C5 witness: with a sales keyword and two paths, the daily path is chosen. -/
theorem claim_C5_witness :
    (0 < (["s3://b/misc.json", "s3://b/daily.json"] : List String).length
      ∧ (analyze_request "売上を見たい").2.contains "DataTable" = true)
    ∧ mainContentValues
        (mock_generate_report "売上を見たい" ["s3://b/misc.json", "s3://b/daily.json"] 0 "N")
        "DataTable"
      = [((["s3://b/misc.json", "s3://b/daily.json"] : List String).find?
            (fun p => strContains p "daily")).getD
          ((["s3://b/misc.json", "s3://b/daily.json"] : List String).headD "")] :=
  ⟨⟨by decide, by decide⟩,
    claim_C5 "売上を見たい" ["s3://b/misc.json", "s3://b/daily.json"] 0 "N" (by decide) (by decide)⟩

/-- C6: for a path list of length at least two, when the bar-chart component
is selected the single BarChart section's content value is the first path
containing the "category" marker, else exactly the second path
(`report_generator_mock.py` lines 113-134). -/
theorem claim_C6 (user_request : String) (s3_paths : List String) (ts : Nat) (now : String)
    (hlen : 1 < s3_paths.length)
    (hsel : (analyze_request user_request).2.contains "BarChart" = true) :
    mainContentValues (mock_generate_report user_request s3_paths ts now) "BarChart"
      = [(s3_paths.find? (fun p => strContains p "category")).getD (s3_paths.getD 1 "")] := by
  unfold mock_generate_report mockMain mainContentValues
  split_ifs <;>
    simp_all [cardSection, dataTableSection, barChartSection, textFieldSection,
      sectionValues, concatAll, categoryPath, List.filter]

/-- C6 witness: with a category keyword and two paths neither containing the
marker, the second path is chosen. -/
theorem claim_C6_witness :
    (1 < (["s3://b/a.json", "s3://b/b.json"] : List String).length
      ∧ (analyze_request "カテゴリ比較").2.contains "BarChart" = true)
    ∧ mainContentValues
        (mock_generate_report "カテゴリ比較" ["s3://b/a.json", "s3://b/b.json"] 0 "N") "BarChart"
      = [((["s3://b/a.json", "s3://b/b.json"] : List String).find?
            (fun p => strContains p "category")).getD
          ((["s3://b/a.json", "s3://b/b.json"] : List String).getD 1 "")] :=
  ⟨⟨by decide, by decide⟩,
    claim_C6 "カテゴリ比較" ["s3://b/a.json", "s3://b/b.json"] 0 "N" (by decide) (by decide)⟩

/-- C7: the fallback assembler emits, in fixed order, exactly one header
title block with id `section_header_1`, then a Card section iff selected,
then a DataTable section iff selected and at least one path was given, then
a BarChart section iff selected and at least two paths were given, then the
trailing fixed TextField block; the main sections carry sequential ids
`section_main_1`, `section_main_2`, ... (`report_generator_mock.py`
lines 35-153). -/
theorem claim_C7 (user_request : String) (s3_paths : List String) (ts : Nat) (now : String) :
    (mock_generate_report user_request s3_paths ts now).sections.header.map
        (fun h => h.id) = ["section_header_1"]
    ∧ (mock_generate_report user_request s3_paths ts now).sections.main.map
        (fun s => s.component) =
      (if (analyze_request user_request).2.contains "Card" then ["Card"] else []) ++
      (if (analyze_request user_request).2.contains "DataTable" ∧ 0 < s3_paths.length
       then ["DataTable"] else []) ++
      (if (analyze_request user_request).2.contains "BarChart" ∧ 1 < s3_paths.length
       then ["BarChart"] else []) ++
      ["TextField"]
    ∧ (mock_generate_report user_request s3_paths ts now).sections.main.map
        (fun s => s.id) =
      (List.range
        (mock_generate_report user_request s3_paths ts now).sections.main.length).map
        (fun i => mkMainId (i + 1)) := by
  refine ⟨rfl, ?_, ?_⟩
  · unfold mock_generate_report mockMain
    split_ifs <;>
      simp [cardSection, dataTableSection, barChartSection, textFieldSection, mockHeader]
  · unfold mock_generate_report mockMain cardCount tableCount barCount
    split_ifs <;> rfl

/-- C10: whenever the Card component is selected, the emitted Card section is
one fixed constant — first main section, id `section_main_1`, title
売上サマリー, description 主要KPI, a single empty-valued TEXT content whose
props are the fabricated KPI figures — independent of the request text and
the data paths (`report_generator_mock.py` lines 67-89). -/
theorem claim_C10 (user_request : String) (s3_paths : List String) (ts : Nat) (now : String)
    (hsel : (analyze_request user_request).2.contains "Card" = true) :
    (mock_generate_report user_request s3_paths ts now).sections.main.head? =
      some { id := "section_main_1", type := "Default", component := "Card",
             title := "売上サマリー", description := "主要KPI",
             contents := [{ source := "TEXT", component := "Card", value := "",
                            props := [("title", PVal.s "今月の売上"),
                                      ("description", PVal.s "前月比 +15%"),
                                      ("content", PVal.s "¥45,280,000"),
                                      ("footer", PVal.s "目標達成率: 112%")] }] }
    ∧ (mock_generate_report user_request s3_paths ts now).sections.main.filter
        (fun s => s.component == "Card") =
      [{ id := "section_main_1", type := "Default", component := "Card",
         title := "売上サマリー", description := "主要KPI",
         contents := [{ source := "TEXT", component := "Card", value := "",
                        props := [("title", PVal.s "今月の売上"),
                                  ("description", PVal.s "前月比 +15%"),
                                  ("content", PVal.s "¥45,280,000"),
                                  ("footer", PVal.s "目標達成率: 112%")] }] }] := by
  unfold mock_generate_report mockMain
  split_ifs <;>
    simp_all [cardSection, dataTableSection, barChartSection, textFieldSection, mkMainId] <;>
    rfl

/-- C10 witness: a KPI request with data paths still gets the constant card. -/
theorem claim_C10_witness :
    ((analyze_request "KPIサマリー").2.contains "Card" = true)
    ∧ (mock_generate_report "KPIサマリー" ["s3://b/daily.json"] 5 "N").sections.main.head? =
      some { id := "section_main_1", type := "Default", component := "Card",
             title := "売上サマリー", description := "主要KPI",
             contents := [{ source := "TEXT", component := "Card", value := "",
                            props := [("title", PVal.s "今月の売上"),
                                      ("description", PVal.s "前月比 +15%"),
                                      ("content", PVal.s "¥45,280,000"),
                                      ("footer", PVal.s "目標達成率: 112%")] }] } :=
  ⟨by decide, (claim_C10 "KPIサマリー" ["s3://b/daily.json"] 5 "N" (by decide)).1⟩

/-- C1 counterexample: the claim's universal part fails.  The raw backend
output `"{}"` is parseable, so the v2 entry point returns it with only
`reportId`/`createdAt`/`createdBy` synthesized — no `title` and no
`sections` — and in the v1 variant an unparseable raw output (`"hello"`,
no fence) makes `generate_report` return the error-shaped dict
`{"error": "Failed to parse JSON", ...}` instead of a well-formed document. -/
theorem claim_C1_counterexample :
    getField (generate_report_v2 (.finished "{}") 0 "D") "title" = none
    ∧ getField (generate_report_v2 (.finished "{}") 0 "D") "sections" = none
    ∧ getField (generate_report_v2 (.finished "{}") 0 "D") "reportId"
        = some (.str "report_0")
    ∧ getField (generate_report_v1_output "hello" [] 0 "D") "error"
        = some (.str "Failed to parse JSON")
    ∧ getField (generate_report_v1_output "hello" [] 0 "D") "reportId" = none :=
  ⟨rfl, rfl, rfl, rfl, rfl⟩

/-- C1 amended: in the v2 resilient variant, every raw output string with no
fenced code block and not parseable as JSON makes `generate_report` fall back
to the deterministic fallback document, which carries `reportId`, `title`,
`createdAt`, `createdBy` and a sections object with header and main lists;
parseable outputs, however, are returned with only the three draft fields
guaranteed, and the v1 variant answers the same coercion failure with the
error dict, not the fallback
(`report_generator_agents_sdk_v2.py` lines 206-243,
`report_generator_agents_sdk.py` lines 190-223). -/
theorem claim_C1_amended (raw : String) (ts : Nat) (now : String) (msgs : List String)
    (hfence2 : extractFencedV2 raw = none) (hparse : jsonParse raw = none)
    (hfence1 : extractFencedV1 raw = none) :
    generate_report_v2 (.finished raw) ts now = (fallbackReport ts now).toJVal
    ∧ getField (generate_report_v2 (.finished raw) ts now) "reportId"
        = some (.str ("report_" ++ toString ts))
    ∧ getField (generate_report_v2 (.finished raw) ts now) "title" = some (.str "レポート")
    ∧ getField (generate_report_v2 (.finished raw) ts now) "createdAt"
        = some (.str (now ++ "Z"))
    ∧ getField (generate_report_v2 (.finished raw) ts now) "createdBy"
        = some (.str "agent_generated")
    ∧ (∃ headerList mainList,
        getField (generate_report_v2 (.finished raw) ts now) "sections"
          = some (.obj [("header", .arr headerList), ("main", .arr mainList)]))
    ∧ generate_report_v1_output raw msgs ts now = v1ErrorDict raw msgs := by
  have hv2 : generate_report_v2 (.finished raw) ts now = (fallbackReport ts now).toJVal := by
    show generate_report_v2_output raw ts now = (fallbackReport ts now).toJVal
    unfold generate_report_v2_output
    rw [hfence2, hparse]
  refine ⟨hv2, ?_, ?_, ?_, ?_, ?_, ?_⟩
  · rw [hv2]; rfl
  · rw [hv2]; rfl
  · rw [hv2]; rfl
  · rw [hv2]; rfl
  · rw [hv2]
    exact ⟨(fallbackReport ts now).sections.header.map HeaderSection.toJVal,
           (fallbackReport ts now).sections.main.map MainSection.toJVal, rfl⟩
  · unfold generate_report_v1_output
    rw [hfence1, hparse]

/-- C1 witness: the unparseable fence-free raw output "hello" exercises the
amended claim. -/
theorem claim_C1_witness :
    (extractFencedV2 "hello" = none ∧ jsonParse "hello" = none
      ∧ extractFencedV1 "hello" = none)
    ∧ generate_report_v2 (.finished "hello") 3 "D" = (fallbackReport 3 "D").toJVal
    ∧ generate_report_v1_output "hello" ["m"] 3 "D" = v1ErrorDict "hello" ["m"] :=
  ⟨⟨rfl, rfl, rfl⟩, (claim_C1_amended "hello" 3 "D" ["m"] rfl rfl rfl).1,
    (claim_C1_amended "hello" 3 "D" ["m"] rfl rfl rfl).2.2.2.2.2.2⟩

/-- The `title` field survives the dict embedding of a document. -/
theorem getField_toJVal_title (d : ReportDocument) :
    getField d.toJVal "title" = some (.str d.title) := rfl

/-- C3 counterexample: the document the v2 resilient variant returns when the
agent run raises is not the mock assembler's document for the same inputs —
at request "月次レポート" with no paths the mock document's title is
月次レポート and its main list has two sections, while the fallback document
is titled レポート with a single error TextField section. -/
theorem claim_C3_counterexample :
    generate_report_v2 .raised 0 "D" ≠ (mock_generate_report "月次レポート" [] 0 "D").toJVal := by
  intro h
  have h1 : getField (generate_report_v2 .raised 0 "D") "title" = some (.str "レポート") := rfl
  have hm : (mock_generate_report "月次レポート" [] 0 "D").title = "月次レポート" := by decide
  rw [h, getField_toJVal_title, hm] at h1
  simp at h1

/-- C3 amended: the error-path result of the v2 resilient variant is the
fixed error document `_generate_fallback_report` — title レポート, one header
title block, a single TextField error section — independent of the request
text and path list, and in general different from the mock assembler's
document (`report_generator_agents_sdk_v2.py` lines 241-286). -/
theorem claim_C3_amended (ts : Nat) (now : String) :
    generate_report_v2 .raised ts now = (fallbackReport ts now).toJVal
    ∧ fallbackReport ts now =
      { reportId := "report_" ++ toString ts, title := "レポート",
        createdAt := now ++ "Z", createdBy := "agent_generated",
        sections :=
          { header := [{ id := "section_header_1", type := "Default",
                         component := "MainHeader",
                         contents := [{ source := "TEXT", component := "MainHeader",
                                        value := "レポート", props := [] }] }],
            main := [{ id := "section_main_1", type := "Default",
                       component := "TextField", title := "エラー", description := "",
                       contents := [{ source := "TEXT", component := "TextField",
                                      value := "レポート生成中にエラーが発生しました。",
                                      props := [] }] }] } } :=
  ⟨rfl, rfl⟩
